import Mathlib

/-!
Verification of the original logic of the fsl-topup gear: the command-list
builder `build_command_list` from `common.py`, and the rigid-transform
builder described in the design document (its source is not among the
repository files available here, so it is modelled from the design text).

Python values that callers pass to `build_command_list` are booleans,
integers and strings; they are embedded as the inductive type `PValue`
together with Python's `str()` rendering and truthiness.
-/

namespace FslTopup

/-- A Python value as passed in the `ParamList` dictionary of
`build_command_list`: a boolean, an integer, or a string. -/
inductive PValue where
  | bool (b : Bool)
  | int (n : Int)
  | str (s : String)
deriving DecidableEq, Repr

/-- Python `str(v)` for the embedded values: `str(True) = "True"`,
`str(False) = "False"`, integers render in decimal, strings unchanged. -/
def pyStr : PValue → String
  | .bool true => "True"
  | .bool false => "False"
  | .int n => toString n
  | .str s => s

/-- Python truthiness of a value: `bool(v)`.  A boolean is itself, an
integer is truthy iff nonzero, a string iff nonempty. -/
def pyTruthy : PValue → Bool
  | .bool b => b
  | .int n => n != 0
  | .str s => s != ""

/-- Python `type(v) == bool` for the embedded values. -/
def PValue.isBool : PValue → Bool
  | .bool _ => true
  | _ => false

/-- The body of the `for key in ParamList.keys()` loop of
`build_command_list` (common.py lines 22-48), acting on the current
contents of `command`: each `command.append(x)` becomes `++ [x]`. -/
def loopBody (include_keys : Bool) (command : List String)
    (key : String) (v : PValue) : List String :=
  -- Single character command-line parameters are preceded by a single '-'
  if key.length = 1 then
    if include_keys then
      -- If Param is boolean and true include, else exclude
      if v.isBool || (pyStr v).length = 0 then
        if pyTruthy v && include_keys then
          command ++ ["-" ++ key]
        else
          command
      else
        command ++ ["-" ++ key] ++ [pyStr v]
    else
      command
  -- Multi-Character command-line parameters are preceded by a double '--'
  else
    -- If Param is boolean and true include, else exclude
    if v.isBool then
      if pyTruthy v && include_keys then
        command ++ ["--" ++ key]
      else
        command
    else
      -- If Param not boolean, but without value include without value
      -- (e.g. '--key'), else include value (e.g. '--key=value')
      let item₀ := if include_keys then "--" ++ key else ""
      let item₁ :=
        if (pyStr v).length > 0 then
          (if include_keys then item₀ ++ "=" else item₀) ++ pyStr v
        else
          item₀
      command ++ [item₁]

/-- `build_command_list(command, ParamList, include_keys=True)` from
common.py: folds the loop body over the entries of `ParamList` in
iteration (insertion) order, starting from `command`, and returns the
resulting list. -/
def build_command_list (command : List String)
    (ParamList : List (String × PValue)) (include_keys : Bool := true) :
    List String :=
  match ParamList with
  | [] => command
  | (key, v) :: rest =>
      build_command_list (loopBody include_keys command key v) rest include_keys

/-- The tokens that a single `ParamList` entry contributes to the command
list. -/
def entryTokens (include_keys : Bool) (key : String) (v : PValue) :
    List String :=
  loopBody include_keys [] key v

/-- The tokens contributed by all entries of `ParamList`, in order. -/
def optionTokens (include_keys : Bool)
    (ParamList : List (String × PValue)) : List String :=
  ParamList.flatMap fun kv => entryTokens include_keys kv.1 kv.2

lemma loopBody_append (include_keys : Bool) (command : List String)
    (key : String) (v : PValue) :
    loopBody include_keys command key v =
      command ++ entryTokens include_keys key v := by
  unfold entryTokens loopBody
  split_ifs <;> simp

lemma build_command_list_decomp (ParamList : List (String × PValue)) :
    ∀ (command : List String) (include_keys : Bool),
      build_command_list command ParamList include_keys =
        command ++ optionTokens include_keys ParamList := by
  induction ParamList with
  | nil => intro command include_keys; simp [build_command_list, optionTokens]
  | cons kv rest ih =>
      intro command include_keys
      cases kv with
      | mk key v =>
          rw [build_command_list, ih, loopBody_append]
          simp [optionTokens, List.append_assoc]

example :
    build_command_list ["topup"]
      [("imain", PValue.str "a.nii"), ("verbose", PValue.bool true)] =
      ["topup", "--imain=a.nii", "--verbose"] := by decide

lemma string_length_zero_iff (s : String) : s.length = 0 ↔ s = "" := by
  obtain ⟨data⟩ := s
  constructor
  · intro h
    have hd : data = [] := by simpa [String.length] using h
    rw [hd]
  · intro h
    have hd : data = [] := congrArg String.data h
    simp [String.length, hd]

lemma entryTokens_long_str (key s : String) (hk : key.length > 1)
    (hs : s ≠ "") :
    entryTokens true key (PValue.str s) = ["--" ++ key ++ "=" ++ s] := by
  have h1 : key.length ≠ 1 := by omega
  have h2 : 0 < s.length := by
    rcases Nat.eq_zero_or_pos s.length with h0 | h0
    · exact absurd ((string_length_zero_iff s).mp h0) hs
    · exact h0
  simp [entryTokens, loopBody, PValue.isBool, pyStr, h1, h2]

lemma entryTokens_false (key : String) (v : PValue) :
    entryTokens false key v =
      if key.length = 1 then []
      else if v.isBool then [] else [pyStr v] := by
  unfold entryTokens loopBody
  split_ifs with hkey hbool hlen <;>
    simp_all [string_length_zero_iff, Nat.pos_iff_ne_zero]

/-- Claim C1: with `include_keys` left at its default, an option mapping
all of whose keys have length greater than 1 and all of whose values are
nonempty strings renders each entry as the single token `--key=value`,
appended in order to the starting command list. -/
theorem long_nonempty_string_entries (command : List String)
    (ParamList : List (String × PValue))
    (h : ∀ kv ∈ ParamList,
      kv.1.length > 1 ∧ ∃ s : String, kv.2 = PValue.str s ∧ s ≠ "") :
    build_command_list command ParamList =
      command ++ ParamList.map (fun kv => "--" ++ kv.1 ++ "=" ++ pyStr kv.2) := by
  rw [build_command_list_decomp]
  suffices hopt : optionTokens true ParamList =
      ParamList.map (fun kv => "--" ++ kv.1 ++ "=" ++ pyStr kv.2) by
    rw [hopt]
  induction ParamList with
  | nil => simp [optionTokens]
  | cons kv rest ih =>
      obtain ⟨hk, s, hv, hs⟩ := h kv (by simp)
      have hrest := ih fun kv hkv => h kv (by simp [hkv])
      simp only [optionTokens, List.flatMap_cons, List.map_cons] at *
      rw [hrest, hv, entryTokens_long_str kv.1 s hk hs]
      simp [pyStr]

/-- Witness for C1 at a concrete mapping. -/
theorem long_nonempty_string_entries_witness :
    build_command_list ["topup"]
      [("imain", PValue.str "a.nii"), ("datain", PValue.str "acq.txt")] =
      ["topup"] ++
        [("imain", PValue.str "a.nii"), ("datain", PValue.str "acq.txt")].map
          (fun kv => "--" ++ kv.1 ++ "=" ++ pyStr kv.2) :=
  long_nonempty_string_entries ["topup"]
    [("imain", PValue.str "a.nii"), ("datain", PValue.str "acq.txt")]
    (by
      intro kv hkv
      simp only [List.mem_cons, List.not_mem_nil, or_false] at hkv
      rcases hkv with h | h
      · subst h; exact ⟨by decide, "a.nii", rfl, by decide⟩
      · subst h; exact ⟨by decide, "acq.txt", rfl, by decide⟩)

/-- Claim C2: a length-1 key with boolean value, with `include_keys` true,
emits exactly the token `-key` (and nothing else) when the value is true,
and nothing when the value is false. -/
theorem short_bool_entry (command : List String) (key : String) (b : Bool)
    (h : key.length = 1) :
    build_command_list command [(key, PValue.bool b)] true =
      if b then command ++ ["-" ++ key] else command := by
  cases b <;>
    simp [build_command_list, loopBody, PValue.isBool, pyTruthy, h]

/-- Witness for C2 at a concrete short boolean flag. -/
theorem short_bool_entry_witness :
    build_command_list ["bet2"] [("m", PValue.bool true)] true =
      if true then ["bet2"] ++ ["-" ++ "m"] else ["bet2"] :=
  short_bool_entry ["bet2"] "m" true (by decide)

/-- Counterexample to claim C3: a length-1 key with the empty-string value
and `include_keys` true does NOT put `-k` in the output; the entry is
dropped entirely, because the code's truthiness test excludes it. -/
theorem short_empty_value_cex :
    "-k" ∉ build_command_list [] [("k", PValue.str "")] true := by decide

/-- Claim C3 amended: a length-1 key whose value is the (non-boolean)
empty string contributes nothing to the output when `include_keys` is
true — the falsy empty value fails the same truthiness test as boolean
false, so no `-key` token is emitted. -/
theorem short_empty_value_dropped (command : List String) (key : String)
    (h : key.length = 1) :
    build_command_list command [(key, PValue.str "")] true = command := by
  simp [build_command_list, loopBody, PValue.isBool, pyStr, pyTruthy, h]

/-- Witness for amended C3 at a concrete key. -/
theorem short_empty_value_dropped_witness :
    build_command_list ["cmd"] [("k", PValue.str "")] true = ["cmd"] :=
  short_empty_value_dropped ["cmd"] "k" (by decide)

/-- Counterexample to claim C4: with `include_keys` false, a length-1 key
with a non-boolean value emits NO token at all — the value `"v"` does not
participate, contrary to the claim that non-boolean values are still
emitted. -/
theorem include_keys_false_short_cex :
    "v" ∉ build_command_list [] [("k", PValue.str "v")] false := by decide

/-- Claim C4 amended: with `include_keys` false the key name is never
emitted; entries whose key has length 1 contribute nothing at all, and
for longer keys a boolean contributes nothing while a non-boolean value
contributes its string form as a single token. -/
theorem include_keys_false_behavior (command : List String)
    (ParamList : List (String × PValue)) :
    build_command_list command ParamList false =
      command ++ ParamList.flatMap (fun kv =>
        if kv.1.length = 1 then []
        else if kv.2.isBool then [] else [pyStr kv.2]) := by
  rw [build_command_list_decomp]
  simp [optionTokens, entryTokens_false]

/-- Claim C5: a value of numeric zero is still rendered — `-key 0` for a
length-1 key, `--key=0` for a longer key — because the emptiness test is
on the length of the string representation, and `str(0) = "0"` is
nonempty. -/
theorem zero_value_rendered (command : List String) (key : String)
    (h : 1 ≤ key.length) :
    build_command_list command [(key, PValue.int 0)] true =
      if key.length = 1 then command ++ ["-" ++ key, "0"]
      else command ++ ["--" ++ key ++ "=" ++ "0"] := by
  have h0 : pyStr (PValue.int 0) = "0" := rfl
  have h01 : ("0" : String).length = 1 := rfl
  rcases Nat.lt_or_ge key.length 2 with hlen | hlen
  · have hk : key.length = 1 := by omega
    simp [build_command_list, loopBody, PValue.isBool, pyTruthy, h0, h01, hk]
  · have hk : key.length ≠ 1 := by omega
    simp [build_command_list, loopBody, PValue.isBool, pyTruthy, h0, h01, hk]

/-- Witness for C5 at a concrete short key. -/
theorem zero_value_rendered_witness :
    build_command_list ["cmd"] [("x", PValue.int 0)] true =
      if "x".length = 1 then ["cmd"] ++ ["-" ++ "x", "0"]
      else ["cmd"] ++ ["--" ++ "x" ++ "=" ++ "0"] :=
  zero_value_rendered ["cmd"] "x" (by decide)

/-- Claim C6: the output starts with the given positional tokens in order,
followed by the per-entry option tokens in the mapping's iteration order,
and equal inputs give equal outputs. -/
theorem build_order_and_determinism (command : List String)
    (ParamList : List (String × PValue)) (include_keys : Bool)
    (c₂ : List String) (p₂ : List (String × PValue)) (i₂ : Bool)
    (h₁ : c₂ = command) (h₂ : p₂ = ParamList) (h₃ : i₂ = include_keys) :
    build_command_list command ParamList include_keys =
      command ++ optionTokens include_keys ParamList ∧
    build_command_list c₂ p₂ i₂ =
      build_command_list command ParamList include_keys := by
  subst h₁ h₂ h₃
  exact ⟨build_command_list_decomp _ _ _, rfl⟩

/-- Witness for C6 at a concrete call. -/
theorem build_order_and_determinism_witness :
    build_command_list ["topup"] [("verbose", PValue.bool true)] true =
      ["topup"] ++ optionTokens true [("verbose", PValue.bool true)] ∧
    build_command_list ["topup"] [("verbose", PValue.bool true)] true =
      build_command_list ["topup"] [("verbose", PValue.bool true)] true :=
  build_order_and_determinism ["topup"] [("verbose", PValue.bool true)] true
    ["topup"] [("verbose", PValue.bool true)] true rfl rfl rfl

/-- A value is supported when it is boolean, numeric, or has a string
representation (the error condition of the spec's InvalidOption). -/
def supportedValue (v : PValue) : Prop :=
  (∃ b, v = PValue.bool b) ∨ (∃ n, v = PValue.int n) ∨ (∃ s, pyStr v = s)

/-- Claim C7: every value the code can receive is boolean, numeric, or
string-representable — so the InvalidOption failure condition never
holds — and on every such mapping `build_command_list` succeeds,
returning a well-defined result. -/
theorem no_invalid_option :
    (∀ v : PValue, supportedValue v) ∧
    ∀ (command : List String) (ParamList : List (String × PValue))
      (include_keys : Bool),
      ∃ out : List String,
        build_command_list command ParamList include_keys = out ∧
        out = command ++ optionTokens include_keys ParamList := by
  refine ⟨fun v => Or.inr (Or.inr ⟨pyStr v, rfl⟩), fun c p ik => ?_⟩
  exact ⟨build_command_list c p ik, rfl, build_command_list_decomp p c ik⟩

/-- Contents of the list object that the caller passed as `command`, after
`build_command_list` returns.  In the source the only operations on
`command` are in-place `append` calls followed by `return command`, so
after the call the caller's list object holds exactly the returned list. -/
def commandObjectAfterCall (command : List String)
    (ParamList : List (String × PValue)) (include_keys : Bool := true) :
    List String :=
  build_command_list command ParamList include_keys

/-- Counterexample to claim C8: the list object passed as the starting
command is NOT left unchanged — after a call that emits one option token,
the caller's list has grown. -/
theorem command_mutated_cex :
    commandObjectAfterCall ["topup"] [("imain", PValue.str "a.nii")] true ≠
      ["topup"] := by decide

/-- Claim C8 amended: `build_command_list` is deterministic — its result
is a function of its arguments alone — but it extends the passed command
list in place: after the call the caller's list object holds the returned
list, namely the starting tokens followed by the option tokens. -/
theorem command_object_extended (command : List String)
    (ParamList : List (String × PValue)) (include_keys : Bool) :
    commandObjectAfterCall command ParamList include_keys =
      command ++ optionTokens include_keys ParamList ∧
    commandObjectAfterCall command ParamList include_keys =
      build_command_list command ParamList include_keys :=
  ⟨build_command_list_decomp ParamList command include_keys, rfl⟩

/-- Claim C10: with `include_keys` false, a key of length greater than 1
with a non-boolean empty-string-form value appends the empty string as a
token to the command list. -/
theorem long_empty_value_empty_token (command : List String) (key : String)
    (h : key.length > 1) :
    build_command_list command [(key, PValue.str "")] false =
      command ++ [""] := by
  have hk : key.length ≠ 1 := by omega
  simp [build_command_list, loopBody, PValue.isBool, pyStr, hk]

/-- Witness for C10 at a concrete key. -/
theorem long_empty_value_empty_token_witness :
    build_command_list ["cmd"] [("key", PValue.str "")] false =
      ["cmd"] ++ [""] :=
  long_empty_value_empty_token ["cmd"] "key" (by decide)

/-- Modelled from the spec: the rigid-transform builder's source file is
not among the repository files available here; the elementary x-rotation
is built exactly as the design document gives it, as a 4x4 homogeneous
matrix with `cos rx`, `sin rx`, `-sin rx`, `cos rx` at positions
(1,1), (1,2), (2,1), (2,2). -/
noncomputable def Rx (rx : ℝ) : Matrix (Fin 4) (Fin 4) ℝ :=
  !![1, 0, 0, 0;
     0, Real.cos rx, Real.sin rx, 0;
     0, -Real.sin rx, Real.cos rx, 0;
     0, 0, 0, 1]

/-- Modelled from the spec: the elementary y-rotation with `cos ry`,
`-sin ry`, `sin ry`, `cos ry` at positions (0,0), (0,2), (2,0), (2,2). -/
noncomputable def Ry (ry : ℝ) : Matrix (Fin 4) (Fin 4) ℝ :=
  !![Real.cos ry, 0, -Real.sin ry, 0;
     0, 1, 0, 0;
     Real.sin ry, 0, Real.cos ry, 0;
     0, 0, 0, 1]

/-- Modelled from the spec: the elementary z-rotation with `cos rz`,
`sin rz`, `-sin rz`, `cos rz` at positions (0,0), (0,1), (1,0), (1,1). -/
noncomputable def Rz (rz : ℝ) : Matrix (Fin 4) (Fin 4) ℝ :=
  !![Real.cos rz, Real.sin rz, 0, 0;
     -Real.sin rz, Real.cos rz, 0, 0;
     0, 0, 1, 0;
     0, 0, 0, 1]

/-- Modelled from the spec: the rigid transform composes
`R = Rx * Ry * Rz` in that order and then overwrites the entries
`R[0][3] = tx`, `R[1][3] = ty`, `R[2][3] = tz`. -/
noncomputable def rigid_transform (tx ty tz rx ry rz : ℝ) :
    Matrix (Fin 4) (Fin 4) ℝ :=
  let R := Rx rx * Ry ry * Rz rz
  Matrix.of fun i j =>
    if i = 0 ∧ j = 3 then tx
    else if i = 1 ∧ j = 3 then ty
    else if i = 2 ∧ j = 3 then tz
    else R i j

set_option maxHeartbeats 1000000 in
/-- Claim C9: the rigid transform of the all-zero motion parameter vector
is the 4x4 identity, and in general the result is the rotation
composition `Rx * Ry * Rz` with the translations in the last column of
the first three rows and bottom row `[0, 0, 0, 1]`. -/
theorem rigid_transform_correct :
    rigid_transform 0 0 0 0 0 0 = 1 ∧
    ∀ tx ty tz rx ry rz : ℝ,
      rigid_transform tx ty tz rx ry rz =
        !![(Rx rx * Ry ry * Rz rz) 0 0, (Rx rx * Ry ry * Rz rz) 0 1,
             (Rx rx * Ry ry * Rz rz) 0 2, tx;
           (Rx rx * Ry ry * Rz rz) 1 0, (Rx rx * Ry ry * Rz rz) 1 1,
             (Rx rx * Ry ry * Rz rz) 1 2, ty;
           (Rx rx * Ry ry * Rz rz) 2 0, (Rx rx * Ry ry * Rz rz) 2 1,
             (Rx rx * Ry ry * Rz rz) 2 2, tz;
           0, 0, 0, 1] := by
  constructor
  · ext i j
    fin_cases i <;> fin_cases j <;>
      simp [rigid_transform, Rx, Ry, Rz, Matrix.mul_apply,
        Fin.sum_univ_four, Matrix.one_apply, Matrix.vecHead, Matrix.vecTail]
  · intro tx ty tz rx ry rz
    ext i j
    fin_cases i <;> fin_cases j <;>
      simp [rigid_transform, Rx, Ry, Rz, Matrix.mul_apply,
        Fin.sum_univ_four, Matrix.vecHead, Matrix.vecTail]

end FslTopup
